import Mathlib

/-!
Verification of the Modbus-RTU sensor acquisition core of the repository
(`src/enhanced_sensor_system.py`, with the frame codec duplicated in
`src/temperature_redis.py`).

The embedding is shallow: Python byte strings become `List Nat` (each entry
a byte value), Python floats are modelled by exact rationals `ℚ`, dicts
keyed by strings become association lists, and fallible code returns an
explicit outcome type.  A Python function that can terminate with an
uncaught exception is modelled with an explicit exception case in its
result type.  Stateful code (the poll loop, the manager) is modelled by
explicit state passing, with the outcomes of the network reads supplied
by an environment function.
-/

set_option maxRecDepth 8000

namespace SensorSys

/-! ## FrameCodec: `ModbusRTUClient.modbus_crc`, `build_rtu_request`,
`parse_rtu_response` (enhanced_sensor_system.py lines 88-150) -/

/-- One shift round of the CRC loop (lines 94-99): if the low bit is set,
shift right and xor with the polynomial 0xA001, otherwise just shift. -/
def crcShift (crc : Nat) : Nat :=
  if crc % 2 = 1 then (crc >>> 1) ^^^ 0xA001 else crc >>> 1

/-- Processing of one input byte (lines 93-99): xor the byte into the
accumulator, then run eight shift rounds. -/
def crcByteStep (crc b : Nat) : Nat :=
  crcShift (crcShift (crcShift (crcShift (crcShift (crcShift (crcShift (crcShift (crc ^^^ b))))))))

/-- `ModbusRTUClient.modbus_crc` (lines 88-100): CRC-16 with initial value
0xFFFF over the data, returned as the two-byte list [low, high]. -/
def modbus_crc (data : List Nat) : List Nat :=
  let crc := data.foldl crcByteStep 0xFFFF
  [crc &&& 0xFF, (crc >>> 8) &&& 0xFF]

/-- `ModbusRTUClient.build_rtu_request` (lines 102-115): the six-byte body
followed by the CRC bytes.  The Python code wraps the result in
`bytearray(frame)`, which requires every element to be a byte; the
unmasked elements are `slave_addr` and `func_code`. -/
def build_rtu_request (slave_addr start_reg reg_count func_code : Nat) : List Nat :=
  let frame := [slave_addr, func_code,
    (start_reg >>> 8) &&& 0xFF, start_reg &&& 0xFF,
    (reg_count >>> 8) &&& 0xFF, reg_count &&& 0xFF]
  frame ++ modbus_crc frame

/-- The error dictionaries `parse_rtu_response` can return (lines 121-150). -/
inductive ParseError where
  | frameTooShort
  | checksumMismatch
  | unsupportedFunction
  | emptyPayload
  deriving DecidableEq, Repr

/-- Result of `parse_rtu_response`: an error dictionary, a success
dictionary, or an uncaught Python exception escaping the function. -/
inductive ParseResult where
  | err (e : ParseError)
  | ok (slave_addr func_code : Nat) (registers : List Nat)
  | exn
  deriving DecidableEq, Repr

/-- The register-decoding loop of `parse_rtu_response` (lines 137-142):
`for i in range(1, len(data), 2)`.  The second list argument is the part
of `data` from index `i` on (`data[i:]`), so `i < len(data)` exactly
when it is non-empty, `data[i]` is its head and `data[i + 1]` its
second element.  The guard `if i + 1 > len(data): break` is kept
exactly as written, i.e. as `data.length < i + 1`; for `i` ranging
below `len(data)` it can never fire, so when `data[i + 1]` is out of
range — the `[hi]` pattern — the subscript raises IndexError,
modelled as `none`. -/
def decodeLoop (data : List Nat) : Nat → List Nat → Option (List Nat)
  | _, [] => some []
  | i, [_] =>
    if data.length < i + 1 then some []
    else none
  | i, hi :: lo :: rest =>
    if data.length < i + 1 then some []
    else
      match decodeLoop data (i + 2) rest with
      | some t => some ((hi <<< 8 ||| lo) :: t)
      | none => none

/-- The loop of lines 137-142 as `parse_rtu_response` enters it: from
index 1 of `data`. -/
def decodeRegisters (data : List Nat) : Option (List Nat) :=
  decodeLoop data 1 (data.drop 1)

/-- `ModbusRTUClient.parse_rtu_response` (lines 117-150).  The declared
payload byte count `data[0]` is read by the source but never used to
bound the decode loop; the loop runs over the whole of
`data = response[2:-2]`. -/
def parse_rtu_response (response : List Nat) : ParseResult :=
  if response.length < 4 then ParseResult.err ParseError.frameTooShort
  else
    let slave_addr := response.headD 0
    let func_code := (response.drop 1).headD 0
    let data := (response.drop 2).take (response.length - 4)
    let received_crc := response.drop (response.length - 2)
    let calculated_crc := modbus_crc (response.take (response.length - 2))
    if received_crc ≠ calculated_crc then ParseResult.err ParseError.checksumMismatch
    else if func_code = 0x03 ∨ func_code = 0x04 then
      if data.length < 1 then ParseResult.err ParseError.emptyPayload
      else
        match decodeRegisters data with
        | some regs => ParseResult.ok slave_addr func_code regs
        | none => ParseResult.exn
    else ParseResult.err ParseError.unsupportedFunction

/-! ## ValueConverter: `SensorType`, `SensorConfig`,
`IOModuleReader.apply_conversion_formula` (lines 19-37 and 260-287) -/

/-- The `SensorType` enum (lines 19-24). -/
inductive SensorType where
  | temperature
  | wind_speed
  | pressure
  | humidity
  deriving DecidableEq, BEq, Repr

/-- `SensorConfig` (lines 27-37).  The field `linear` models the
`conversion_formula` JSON string after the parse the source performs on
every conversion (lines 263-272): `some (a, b)` stands for a string that
parses to `{"type": "linear", "a": a, "b": b}`; `none` stands for an
absent, malformed, or non-linear formula, all of which fall through to
the built-in per-type formulas. -/
structure SensorConfig where
  sensor_id : String
  sensor_type : SensorType
  slave_addr : Nat
  start_reg : Nat
  reg_count : Nat
  func_code : Nat := 0x04
  linear : Option (ℚ × ℚ) := none
  unit : String := ""
  deriving DecidableEq, Repr

/-- The check `sensor_config.sensor_id.startswith("tem_")` (line 276),
on the character list of the string. -/
def startsWithTem (s : String) : Bool :=
  "tem_".toList.isPrefixOf s.toList

/-- `IOModuleReader.apply_conversion_formula` (lines 260-287), with float
arithmetic modelled exactly over `ℚ`.  The trailing `else: float(raw)`
branch of the source is unreachable: the `SensorType` enum has exactly
the four members matched here. -/
def apply_conversion_formula (raw_value : Nat) (cfg : SensorConfig) : ℚ :=
  match cfg.linear with
  | some (a, b) => a * (raw_value : ℚ) + b
  | none =>
    match cfg.sensor_type with
    | SensorType.temperature =>
      if startsWithTem cfg.sensor_id then (raw_value : ℚ) / 10
      else (((raw_value : ℚ) / 249) - 4) * 7.5 - 40
    | SensorType.pressure => (((raw_value : ℚ) / 249) - 4) * 7.5
    | SensorType.wind_speed => (raw_value : ℚ) * 0.1
    | SensorType.humidity => (raw_value : ℚ) * 0.1

/-! ## GatewayPoller: the change-detection step and one iteration of
`IOModuleReader.run` (lines 153-343) -/

/-- Assignment `d[k] = v` on a Python dict modelled as an association
list: an existing binding is overwritten in place, a new key is appended. -/
def setVal {α : Type} (k : String) (v : α) : List (String × α) → List (String × α)
  | [] => [(k, v)]
  | (k2, w) :: rest => if k2 = k then (k2, v) :: rest else (k2, w) :: setVal k v rest

/-- The change-detection step for one successfully read sensor (lines
315-320): look up the last emitted value; emit — invoke the data
callback — when there is none or the absolute difference exceeds 0.1,
and only then store the new value.  Returns (emitted, new last-values). -/
def processSensor (lv : List (String × ℚ)) (sid : String) (v : ℚ) :
    Bool × List (String × ℚ) :=
  match lv.lookup sid with
  | none => (true, setVal sid v lv)
  | some last => if 0.1 < |v - last| then (true, setVal sid v lv) else (false, lv)

/-- Outcome of `read_sensor_data` for one sensor, as the poll loop sees
it.  `ok raw` is a successful read whose first register is `raw`;
`fail` is `read_sensor_data` returning `None` — its own
`except Exception` catches every send error, receive error, timeout and
decode error internally (lines 256-258); `raised` is an exception that
escapes the loop body into the `except` clause of `run` (line 330),
e.g. one raised by the data callback. -/
inductive ReadOutcome where
  | ok (raw : Nat)
  | fail
  | raised
  deriving DecidableEq, Repr

/-- Result of the per-sensor loop of one poll cycle (lines 312-323):
either the loop ran to completion or broke (`done emits lv read_success`),
or an exception escaped it (`raised emits lv`). -/
inductive LoopResult where
  | done (emits : List (String × ℚ)) (lv : List (String × ℚ)) (read_success : Bool)
  | raised (emits : List (String × ℚ)) (lv : List (String × ℚ))
  deriving DecidableEq, Repr

/-- The `for sensor_config in self.config.sensors` loop of `run`
(lines 312-323): a successful read goes through change detection; a
`None` result sets `read_success = False` and breaks; an escaping
exception aborts the loop. -/
def sensorLoop (outcome : SensorConfig → ReadOutcome) (lv : List (String × ℚ)) :
    List SensorConfig → LoopResult
  | [] => LoopResult.done [] lv true
  | s :: rest =>
    match outcome s with
    | ReadOutcome.ok raw =>
      let v := apply_conversion_formula raw s
      let p := processSensor lv s.sensor_id v
      match sensorLoop outcome p.2 rest with
      | LoopResult.done es lv2 ok =>
        LoopResult.done (if p.1 then (s.sensor_id, v) :: es else es) lv2 ok
      | LoopResult.raised es lv2 =>
        LoopResult.raised (if p.1 then (s.sensor_id, v) :: es else es) lv2
    | ReadOutcome.fail => LoopResult.done [] lv false
    | ReadOutcome.raised => LoopResult.raised [] lv

/-- The mutable state of one `IOModuleReader` (lines 160-168): whether
`self.sock` is set (a non-`None` socket object), the `last_values` dict,
and the three counters of `self.stats`. -/
structure PollerState where
  sock : Bool
  last_values : List (String × ℚ)
  read_count : Nat
  success_count : Nat
  fail_count : Nat
  deriving DecidableEq, Repr

/-- `IOModuleReader.__init__` (lines 156-168): no socket, empty
`last_values`, all counters zero. -/
def initPollerState : PollerState :=
  { sock := false, last_values := [], read_count := 0, success_count := 0, fail_count := 0 }

/-- One iteration of the `while self.running` loop of `run`
(lines 300-336).  `connectOk` is whether `connect()` would succeed this
cycle; note that `connect()` (lines 170-183) assigns a fresh socket
object to `self.sock` before attempting the TCP connect, so `self.sock`
is non-`None` afterwards even when it returns `False`.  The `except`
clause (lines 330-334) — reached only through a `ReadOutcome.raised` —
is the only place that calls `self.disconnect()`. -/
def runCycle (connectOk : Bool) (outcome : SensorConfig → ReadOutcome)
    (sensors : List SensorConfig) (σ : PollerState) : PollerState :=
  if σ.sock = false ∧ connectOk = false then
    { σ with read_count := σ.read_count + 1, sock := true, fail_count := σ.fail_count + 1 }
  else
    match sensorLoop outcome σ.last_values sensors with
    | LoopResult.done _ lv true =>
      { σ with read_count := σ.read_count + 1, sock := true, last_values := lv, success_count := σ.success_count + 1 }
    | LoopResult.done _ lv false =>
      { σ with read_count := σ.read_count + 1, sock := true, last_values := lv, fail_count := σ.fail_count + 1 }
    | LoopResult.raised _ lv =>
      { σ with read_count := σ.read_count + 1, sock := false, last_values := lv, fail_count := σ.fail_count + 1 }

/-! ## AcquisitionManager: `EnhancedSensorData`, `MultiIOModuleManager`
(lines 51-82 and 361-446) -/

/-- `EnhancedSensorData` (lines 51-60), with the capture timestamp
modelled as a natural number. -/
structure EnhancedSensorData where
  sensor_id : String
  sensor_type : SensorType
  value : ℚ
  raw_value : Nat
  timestamp : Nat
  quality : String := "good"
  deriving DecidableEq, Repr

/-- The storage half of `MultiIOModuleManager.on_data_received`
(lines 406-410, under the lock): append, then keep the most recent 1000
entries when the length exceeds 1000. -/
def store_reading (all_data : List EnhancedSensorData) (d : EnhancedSensorData) :
    List EnhancedSensorData :=
  let appended := all_data ++ [d]
  if 1000 < appended.length then appended.drop (appended.length - 1000) else appended

/-- The buffer left by a sequence of `on_data_received` calls starting
from the empty buffer of `__init__` (line 366). -/
def ingestAll (rs : List EnhancedSensorData) : List EnhancedSensorData :=
  rs.foldl store_reading []

/-- The fan-out half of `on_data_received` (lines 412-417, outside the
lock): each registered callback is invoked in turn inside
`try ... except`, so an error outcome is recorded and the loop
continues with the remaining callbacks. -/
def invokeCallbacks (cbs : List (EnhancedSensorData → Except String Unit))
    (d : EnhancedSensorData) : List (Except String Unit) :=
  match cbs with
  | [] => []
  | cb :: rest => cb d :: invokeCallbacks rest d

/-- `MultiIOModuleManager.on_data_received` (lines 404-417): the buffer
update under the lock, then the callback fan-out. -/
def on_data_received (all_data : List EnhancedSensorData)
    (cbs : List (EnhancedSensorData → Except String Unit)) (d : EnhancedSensorData) :
    List EnhancedSensorData × List (Except String Unit) :=
  (store_reading all_data d, invokeCallbacks cbs d)

/-- `MultiIOModuleManager.get_latest_data` (lines 423-437): snapshot,
optional filters, then a stable sort by timestamp descending
(`data.sort(key=..., reverse=True)`). -/
def get_latest_data (all_data : List EnhancedSensorData)
    (sensor_id : Option String) (sensor_type : Option SensorType) :
    List EnhancedSensorData :=
  let d1 : List EnhancedSensorData := match sensor_id with
    | some sid => all_data.filter (fun x => x.sensor_id == sid)
    | none => all_data
  let d2 : List EnhancedSensorData := match sensor_type with
    | some t => d1.filter (fun x => x.sensor_type == t)
    | none => d1
  d2.mergeSort (fun a b => decide (b.timestamp ≤ a.timestamp))

/-! ## `MultiIOModuleManager.add_module` / `remove_module`
(lines 361-389) -/

/-- `IOModuleConfig` (lines 40-48). -/
structure IOModuleConfig where
  module_id : String
  ip : String
  port : Nat
  sensors : List SensorConfig
  read_interval : ℚ := 1
  timeout : ℚ := 5
  deriving DecidableEq, Repr

/-- An `IOModuleReader` object as the manager sees it: its config, the
identity of the data callback it was constructed with, and whether its
thread is running (`__init__` sets `self.running = False`; only
`run`, called by `start()`, sets it to `True`). -/
structure IOModuleReader where
  config : IOModuleConfig
  data_callback : Nat
  running : Bool
  deriving DecidableEq, Repr

/-- The Python exception class an `add_module` call can raise. -/
inductive PyExn where
  | attributeError
  deriving DecidableEq, Repr

/-- `MultiIOModuleManager.remove_module` (lines 383-389): a present
reader is stopped (`reader.stop()` clears `running`) and deleted from
the dict.  Returns the new dict and the stopped readers. -/
def remove_module (modules : List (String × IOModuleReader)) (module_id : String) :
    List (String × IOModuleReader) × List IOModuleReader :=
  match modules.lookup module_id with
  | some reader =>
    (modules.filter (fun p => p.fst != module_id), [{ reader with running := false }])
  | none => (modules, [])

/-- What one `add_module` call leaves behind: the module dict, the
readers it stopped, and the exception it raised, if any. -/
structure AddModuleResult where
  modules : List (String × IOModuleReader)
  stopped : List IOModuleReader
  raised : Option PyExn
  deriving DecidableEq, Repr

/-- `MultiIOModuleManager.add_module` (lines 370-381): replace semantics
via `remove_module`, then a fresh not-yet-started reader bound to the
manager's `on_data_received` (`ingest_id`) is stored in the dict.  The
log statement on line 380 then evaluates `config.config.port`, and
`IOModuleConfig` has no attribute `config`, so every call raises
`AttributeError` after the dict was already updated. -/
def add_module (modules : List (String × IOModuleReader)) (ingest_id : Nat)
    (cfg : IOModuleConfig) : AddModuleResult :=
  let removed :=
    match modules.lookup cfg.module_id with
    | some _ => remove_module modules cfg.module_id
    | none => (modules, [])
  let reader : IOModuleReader :=
    { config := cfg, data_callback := ingest_id, running := false }
  { modules := setVal cfg.module_id reader removed.1,
    stopped := removed.2,
    raised := some PyExn.attributeError }

/-! ## Concrete instances used by the theorems below, drawn from
`create_default_config` (lines 450-534) -/

/-- The pressure sensor of `create_default_config` (lines 475-484). -/
def pressureCfg : SensorConfig :=
  { sensor_id := "pressure_01", sensor_type := SensorType.pressure,
    slave_addr := 1, start_reg := 0, reg_count := 1 }

/-- The first RTC temperature channel of `create_default_config`
(lines 455-464). -/
def temCfg : SensorConfig :=
  { sensor_id := "tem_ch01", sensor_type := SensorType.temperature,
    slave_addr := 1, start_reg := 0, reg_count := 1 }

/-- A sample converted reading. -/
def sampleReading : EnhancedSensorData :=
  { sensor_id := "tem_ch01", sensor_type := SensorType.temperature,
    value := 10, raw_value := 100, timestamp := 0 }

/-- A gateway descriptor (lines 466-472 shape). -/
def gwCfgOld : IOModuleConfig :=
  { module_id := "gw1", ip := "192.168.0.101", port := 8234, sensors := [] }

/-- A second gateway descriptor with the same identifier. -/
def gwCfgNew : IOModuleConfig :=
  { module_id := "gw1", ip := "192.168.0.102", port := 8234, sensors := [pressureCfg] }

/-- A manager module dict already holding a started reader for `gw1`. -/
def demoModules : List (String × IOModuleReader) :=
  [("gw1", { config := gwCfgOld, data_callback := 3, running := true })]

/-! ## Helper lemmas -/

/-- When the slice of `data` still to be decoded has odd length — an odd
number of register bytes remains — the decode loop ends in the
IndexError case, never in the break guard. -/
theorem decodeLoop_none_of_odd :
    ∀ (l : List Nat) (data : List Nat) (i : Nat),
      i + l.length = data.length → l.length % 2 = 1 → decodeLoop data i l = none
  | [], _, _, _, hodd => by simp at hodd
  | [hi], data, i, hlen, _ => by
    simp only [List.length_cons, List.length_nil] at hlen
    simp only [decodeLoop]
    rw [if_neg (by omega)]
  | hi :: lo :: rest, data, i, hlen, hodd => by
    simp only [List.length_cons] at hlen hodd
    have ih := decodeLoop_none_of_odd rest data (i + 2) (by omega) (by omega)
    simp only [decodeLoop]
    rw [if_neg (by omega), ih]

/-- A sensor loop that finished with `read_success = False` and no
exception hit a sensor whose read returned `None`. -/
theorem sensorLoop_done_false_mem :
    ∀ (sensors : List SensorConfig) (outcome : SensorConfig → ReadOutcome)
      (lv es lv2 : List (String × ℚ)),
      sensorLoop outcome lv sensors = LoopResult.done es lv2 false →
      ∃ s, s ∈ sensors ∧ outcome s = ReadOutcome.fail := by
  intro sensors
  induction sensors with
  | nil =>
    intro outcome lv es lv2 h
    simp [sensorLoop] at h
  | cons s rest ih =>
    intro outcome lv es lv2 h
    cases ho : outcome s with
    | ok raw =>
      simp only [sensorLoop, ho] at h
      cases hrec : sensorLoop outcome (processSensor lv s.sensor_id
          (apply_conversion_formula raw s)).2 rest with
      | done es2 lv3 ok2 =>
        rw [hrec] at h
        cases ok2 with
        | true => simp at h
        | false =>
          obtain ⟨s2, hmem, hfail⟩ := ih outcome _ es2 lv3 hrec
          exact ⟨s2, List.mem_cons_of_mem s hmem, hfail⟩
      | raised es2 lv3 =>
        rw [hrec] at h
        simp at h
    | fail => exact ⟨s, List.mem_cons_self s rest, ho⟩
    | raised =>
      simp only [sensorLoop, ho] at h
      exact LoopResult.noConfusion h

/-- Field-level description of one poll cycle: the read counter advances
by one and exactly one of the success and failure counters advances by
one. -/
theorem runCycle_counter_cases (ck : Bool) (outcome : SensorConfig → ReadOutcome)
    (sensors : List SensorConfig) (σ : PollerState) :
    (runCycle ck outcome sensors σ).read_count = σ.read_count + 1 ∧
    (((runCycle ck outcome sensors σ).success_count = σ.success_count + 1 ∧
      (runCycle ck outcome sensors σ).fail_count = σ.fail_count) ∨
     ((runCycle ck outcome sensors σ).success_count = σ.success_count ∧
      (runCycle ck outcome sensors σ).fail_count = σ.fail_count + 1)) := by
  unfold runCycle
  split
  · exact ⟨rfl, Or.inr ⟨rfl, rfl⟩⟩
  · split
    · exact ⟨rfl, Or.inl ⟨rfl, rfl⟩⟩
    · exact ⟨rfl, Or.inr ⟨rfl, rfl⟩⟩
    · exact ⟨rfl, Or.inr ⟨rfl, rfl⟩⟩

/-- The fan-out loop calls every callback once, in order. -/
theorem invokeCallbacks_eq_map :
    ∀ (cbs : List (EnhancedSensorData → Except String Unit)) (d : EnhancedSensorData),
      invokeCallbacks cbs d = cbs.map (fun cb => cb d)
  | [], _ => rfl
  | cb :: rest, d => by
    simp only [invokeCallbacks, List.map, invokeCallbacks_eq_map rest d]

/-- Dict assignment then lookup at the same key. -/
theorem lookup_setVal {α : Type} (k : String) (v : α) :
    ∀ l : List (String × α), (setVal k v l).lookup k = some v
  | [] => by simp [setVal, List.lookup]
  | (k2, w) :: rest => by
    by_cases h : k2 = k
    · simp [setVal, h, List.lookup]
    · simp only [setVal, if_neg h, List.lookup]
      rw [show (k == k2) = false by simp [Ne.symm h]]
      exact lookup_setVal k v rest

/-- One more ingested reading folds through `store_reading`. -/
theorem ingestAll_concat (rs : List EnhancedSensorData) (r : EnhancedSensorData) :
    ingestAll (rs ++ [r]) = store_reading (ingestAll rs) r := by
  simp [ingestAll, List.foldl_append]

/-- The buffer left by any ingestion sequence is exactly the most recent
1000 readings, in insertion order. -/
theorem ingestAll_eq_drop :
    ∀ rs : List EnhancedSensorData, ingestAll rs = rs.drop (rs.length - 1000) := by
  intro rs
  induction rs using List.reverseRecOn with
  | nil => rfl
  | append_singleton l r ih =>
    rw [ingestAll_concat, ih]
    unfold store_reading
    by_cases h : 1000 ≤ l.length
    · have hc : 1000 < (l.drop (l.length - 1000) ++ [r]).length := by
        simp only [List.length_append, List.length_drop, List.length_cons, List.length_nil]
        omega
      rw [if_pos hc]
      have hlen2 : (l.drop (l.length - 1000) ++ [r]).length - 1000 = 1 := by
        simp only [List.length_append, List.length_drop, List.length_cons, List.length_nil]
        omega
      rw [hlen2]
      rw [List.drop_append_of_le_length (by simp only [List.length_drop]; omega)]
      rw [List.drop_drop]
      rw [List.drop_append_of_le_length (by
        simp only [List.length_append, List.length_cons, List.length_nil]
        omega)]
      have heq : l.length - 1000 + 1 = (l ++ [r]).length - 1000 := by
        simp only [List.length_append, List.length_cons, List.length_nil]
        omega
      rw [heq]
    · rw [if_neg (by
        simp only [List.length_append, List.length_drop, List.length_cons, List.length_nil]
        omega)]
      rw [show l.length - 1000 = 0 by omega,
        show (l ++ [r]).length - 1000 = 0 by
          simp only [List.length_append, List.length_cons, List.length_nil]
          omega]
      simp

/-- The no-emit case of the change threshold at the spec's test pair. -/
theorem no_emit_at_2005 : ¬ ((0.1 : ℚ) < |(20.05 : ℚ) - 20|) := by
  rw [show (20.05 : ℚ) - 20 = 0.05 by norm_num,
    abs_of_nonneg (by norm_num : (0 : ℚ) ≤ 0.05)]
  norm_num

/-- The emit case of the change threshold at the spec's test pair. -/
theorem emit_at_202 : (0.1 : ℚ) < |(20.2 : ℚ) - 20| := by
  rw [show (20.2 : ℚ) - 20 = 0.2 by norm_num,
    abs_of_nonneg (by norm_num : (0 : ℚ) ≤ 0.2)]
  norm_num

/-! ## The claims -/

/-- C1: the claim says `ParseResponse` is total and in particular stops
early, without erroring, when an odd trailing byte remains.  The code's
break guard `i + 1 > len(data)` can never fire inside
`range(1, len(data), 2)`, so on every frame whose `data = response[2:-2]`
slice has even length — an odd number of register bytes after the byte
count — the subscript `data[i + 1]` raises IndexError instead: the
decode loop hits its exception case for every such slice, and the parse
of the well-formed frame `[0x01, 0x04, 0x02, 0x00, 0x41, 0x79]` (valid
CRC, function 0x04) raises rather than returning the registers decoded
so far.  A frame with an even number of register bytes decodes fine. -/
theorem parse_response_odd_trailing_byte_raises :
    (∀ data : List Nat, 2 ≤ data.length → data.length % 2 = 0 → decodeRegisters data = none) ∧
    parse_rtu_response [0x01, 0x04, 0x02, 0x00, 0x41, 0x79] = ParseResult.exn ∧
    parse_rtu_response [0x01, 0x04, 0x02, 0x00, 0x64, 0xB8, 0xDB] = ParseResult.ok 1 4 [100] := by
  refine ⟨?_, by decide, by decide⟩
  intro data h2 heven
  apply decodeLoop_none_of_odd
  · simp only [List.length_drop]
    omega
  · simp only [List.length_drop]
    omega

/-- C2 counterexample: a started poller whose single sensor read fails
(`read_sensor_data` returns `None`, covering send errors, receive
errors and timeouts, all caught inside it) does NOT close its socket:
after the cycle `sock` is still set, the failure only being counted,
so the next cycle reads on the same connection with no reconnection
attempt. -/
theorem read_failure_disconnect_cex :
    (runCycle true (fun _ => ReadOutcome.fail) [pressureCfg]
      { sock := true, last_values := [], read_count := 0, success_count := 0,
        fail_count := 0 }).sock = true ∧
    ¬ ((runCycle true (fun _ => ReadOutcome.fail) [pressureCfg]
      { sock := true, last_values := [], read_count := 0, success_count := 0,
        fail_count := 0 }).sock = false) := by
  exact ⟨by decide, by decide⟩

/-- C2 as the code actually behaves: when a sensor read fails with a
send error, receive error or timeout — all swallowed inside
`read_sensor_data`, which returns `None`, making the sensor loop end
with `read_success = False` — the poller leaves its socket untouched
and merely counts the cycle as failed; `disconnect()` sits only in the
`except` branch of `run`, which such failures never reach.  The next
cycle therefore reads on the very connection that just failed. -/
theorem read_failure_no_disconnect (ck : Bool) (outcome : SensorConfig → ReadOutcome)
    (sensors : List SensorConfig) (σ : PollerState) (es lv : List (String × ℚ))
    (hsock : σ.sock = true)
    (hloop : sensorLoop outcome σ.last_values sensors = LoopResult.done es lv false) :
    (runCycle ck outcome sensors σ).sock = true ∧
    (runCycle ck outcome sensors σ).fail_count = σ.fail_count + 1 ∧
    (runCycle ck outcome sensors σ).success_count = σ.success_count ∧
    ∃ s, s ∈ sensors ∧ outcome s = ReadOutcome.fail := by
  have hcond : ¬ (σ.sock = false ∧ ck = false) := by simp [hsock]
  unfold runCycle
  rw [if_neg hcond, hloop]
  exact ⟨rfl, rfl, rfl, sensorLoop_done_false_mem sensors outcome σ.last_values es lv hloop⟩

/-- C2 witness: the general no-disconnect theorem applied to a concrete
one-sensor cycle whose read fails. -/
theorem read_failure_no_disconnect_wit :
    (runCycle true (fun _ => ReadOutcome.fail) [temCfg]
      { sock := true, last_values := [], read_count := 3, success_count := 2,
        fail_count := 1 }).sock = true ∧
    (runCycle true (fun _ => ReadOutcome.fail) [temCfg]
      { sock := true, last_values := [], read_count := 3, success_count := 2,
        fail_count := 1 }).fail_count = 1 + 1 ∧
    (runCycle true (fun _ => ReadOutcome.fail) [temCfg]
      { sock := true, last_values := [], read_count := 3, success_count := 2,
        fail_count := 1 }).success_count = 2 ∧
    ∃ s, s ∈ [temCfg] ∧ (fun _ : SensorConfig => ReadOutcome.fail) s = ReadOutcome.fail :=
  read_failure_no_disconnect true (fun _ => ReadOutcome.fail) [temCfg]
    { sock := true, last_values := [], read_count := 3, success_count := 2, fail_count := 1 }
    [] [] rfl rfl

/-- C3: under the byte-range precondition `bytearray` imposes on the
unmasked fields, `build_rtu_request` emits exactly the six-byte body
[slave, function, startRegHi, startRegLo, regCountHi, regCountLo] —
the two 16-bit fields big-endian — followed by the CRC of those six
bytes in [low, high] order, 8 bytes in all; and `modbus_crc` meets the
standard Modbus CRC-16 golden value 0xCA31 → [0x31, 0xCA] on the
vector [01 04 00 00 00 01]. -/
theorem build_request_frame_layout (slave_addr start_reg reg_count func_code : Nat)
    (_hslave : slave_addr < 256) (_hfunc : func_code < 256) :
    build_rtu_request slave_addr start_reg reg_count func_code =
      [slave_addr, func_code, (start_reg >>> 8) &&& 0xFF, start_reg &&& 0xFF,
        (reg_count >>> 8) &&& 0xFF, reg_count &&& 0xFF] ++
      modbus_crc [slave_addr, func_code, (start_reg >>> 8) &&& 0xFF, start_reg &&& 0xFF,
        (reg_count >>> 8) &&& 0xFF, reg_count &&& 0xFF] ∧
    (build_rtu_request slave_addr start_reg reg_count func_code).length = 8 ∧
    modbus_crc [0x01, 0x04, 0x00, 0x00, 0x00, 0x01] = [0x31, 0xCA] ∧
    build_rtu_request 1 0 1 4 = [0x01, 0x04, 0x00, 0x00, 0x00, 0x01, 0x31, 0xCA] := by
  refine ⟨rfl, ?_, by decide, by decide⟩
  simp [build_rtu_request, modbus_crc]

/-- C3 witness: the layout theorem at the request (slave 1, start 0,
count 1, function 0x04). -/
theorem build_request_frame_layout_wit :
    build_rtu_request 1 0 1 4 =
      [1, 4, (0 >>> 8) &&& 0xFF, 0 &&& 0xFF, (1 >>> 8) &&& 0xFF, 1 &&& 0xFF] ++
      modbus_crc [1, 4, (0 >>> 8) &&& 0xFF, 0 &&& 0xFF, (1 >>> 8) &&& 0xFF, 1 &&& 0xFF] ∧
    (build_rtu_request 1 0 1 4).length = 8 ∧
    modbus_crc [0x01, 0x04, 0x00, 0x00, 0x00, 0x01] = [0x31, 0xCA] ∧
    build_rtu_request 1 0 1 4 = [0x01, 0x04, 0x00, 0x00, 0x00, 0x01, 0x31, 0xCA] :=
  build_request_frame_layout 1 0 1 4 (by norm_num) (by norm_num)

/-- C4: the error cases fire as specified and in the specified order —
too-short before checksum (`[1, 5, 9]` is rejected as short although
its function code is unsupported), checksum before function code
(`[1, 5, 2, 0]` is rejected as a checksum mismatch although 0x05 is
unsupported), and empty payload for a CRC-valid 0x04 frame with no
payload bytes — but the final clause, "otherwise it succeeds", fails:
the CRC-valid frame [01 03 04 00 00 00 44 FA] passes every check yet
raises IndexError (the C1 defect) instead of returning registers.  A
0x03 frame with an even number of register bytes does succeed with
slave address, function code and registers. -/
theorem parse_response_error_taxonomy :
    parse_rtu_response [] = ParseResult.err ParseError.frameTooShort ∧
    parse_rtu_response [0x01, 0x04, 0x02] = ParseResult.err ParseError.frameTooShort ∧
    parse_rtu_response [0x01, 0x05, 0x09] = ParseResult.err ParseError.frameTooShort ∧
    parse_rtu_response [0x01, 0x04, 0x02, 0x00, 0x41, 0x78] =
      ParseResult.err ParseError.checksumMismatch ∧
    parse_rtu_response [0x01, 0x05, 0x02, 0x00] =
      ParseResult.err ParseError.checksumMismatch ∧
    parse_rtu_response [0x01, 0x05, 0x02, 0x00, 0x64, 0xB9, 0x27] =
      ParseResult.err ParseError.unsupportedFunction ∧
    parse_rtu_response [0x01, 0x04, 0x01, 0xE3] = ParseResult.err ParseError.emptyPayload ∧
    parse_rtu_response [0x01, 0x03, 0x04, 0x00, 0x00, 0x00, 0x44, 0xFA] = ParseResult.exn ∧
    parse_rtu_response [0x01, 0x03, 0x02, 0x00, 0x64, 0xB9, 0xAF] =
      ParseResult.ok 1 3 [100] := by
  exact ⟨by decide, by decide, by decide, by decide, by decide, by decide, by decide,
    by decide, by decide⟩

/-- C5: with the per-sensor linear override present the converter
returns `a * raw + b`; otherwise it selects by type — `raw / 10` for a
temperature channel whose identifier starts with the RTC marker
`tem_`, `((raw / 249) - 4) * 7.5 - 40` for other temperature channels,
`((raw / 249) - 4) * 7.5` for pressure, `raw * 0.1` for wind speed and
humidity (the enum has no further members, so the `float(raw)` default
is dead code) — and it meets the two spec test points. -/
theorem conversion_formula_spec (raw : Nat) (cfg : SensorConfig) (_hraw : raw < 65536) :
    (∀ a b : ℚ, cfg.linear = some (a, b) →
      apply_conversion_formula raw cfg = a * (raw : ℚ) + b) ∧
    (cfg.linear = none → cfg.sensor_type = SensorType.temperature →
      startsWithTem cfg.sensor_id = true →
      apply_conversion_formula raw cfg = (raw : ℚ) / 10) ∧
    (cfg.linear = none → cfg.sensor_type = SensorType.temperature →
      startsWithTem cfg.sensor_id = false →
      apply_conversion_formula raw cfg = (((raw : ℚ) / 249) - 4) * 7.5 - 40) ∧
    (cfg.linear = none → cfg.sensor_type = SensorType.pressure →
      apply_conversion_formula raw cfg = (((raw : ℚ) / 249) - 4) * 7.5) ∧
    (cfg.linear = none → cfg.sensor_type = SensorType.wind_speed →
      apply_conversion_formula raw cfg = (raw : ℚ) * 0.1) ∧
    (cfg.linear = none → cfg.sensor_type = SensorType.humidity →
      apply_conversion_formula raw cfg = (raw : ℚ) * 0.1) ∧
    apply_conversion_formula 250 pressureCfg = (((250 : ℚ) / 249) - 4) * 7.5 ∧
    apply_conversion_formula 100 temCfg = 10 := by
  refine ⟨?_, ?_, ?_, ?_, ?_, ?_, ?_, ?_⟩
  · intro a b hlin
    simp [apply_conversion_formula, hlin]
  · intro hlin htype hpre
    simp [apply_conversion_formula, hlin, htype, hpre]
  · intro hlin htype hpre
    simp [apply_conversion_formula, hlin, htype, hpre]
  · intro hlin htype
    simp [apply_conversion_formula, hlin, htype]
  · intro hlin htype
    simp [apply_conversion_formula, hlin, htype]
  · intro hlin htype
    simp [apply_conversion_formula, hlin, htype]
  · simp [apply_conversion_formula, pressureCfg]
  · rw [show apply_conversion_formula 100 temCfg =
      (if startsWithTem "tem_ch01" then (100 : ℚ) / 10
        else (((100 : ℚ) / 249) - 4) * 7.5 - 40) from rfl]
    rw [if_pos (by decide)]
    norm_num

/-- C5 witness: the converter theorem at raw = 250 with the pressure
descriptor. -/
theorem conversion_formula_spec_wit :
    (∀ a b : ℚ, pressureCfg.linear = some (a, b) →
      apply_conversion_formula 250 pressureCfg = a * ((250 : Nat) : ℚ) + b) ∧
    (pressureCfg.linear = none → pressureCfg.sensor_type = SensorType.temperature →
      startsWithTem pressureCfg.sensor_id = true →
      apply_conversion_formula 250 pressureCfg = ((250 : Nat) : ℚ) / 10) ∧
    (pressureCfg.linear = none → pressureCfg.sensor_type = SensorType.temperature →
      startsWithTem pressureCfg.sensor_id = false →
      apply_conversion_formula 250 pressureCfg = ((((250 : Nat) : ℚ) / 249) - 4) * 7.5 - 40) ∧
    (pressureCfg.linear = none → pressureCfg.sensor_type = SensorType.pressure →
      apply_conversion_formula 250 pressureCfg = ((((250 : Nat) : ℚ) / 249) - 4) * 7.5) ∧
    (pressureCfg.linear = none → pressureCfg.sensor_type = SensorType.wind_speed →
      apply_conversion_formula 250 pressureCfg = ((250 : Nat) : ℚ) * 0.1) ∧
    (pressureCfg.linear = none → pressureCfg.sensor_type = SensorType.humidity →
      apply_conversion_formula 250 pressureCfg = ((250 : Nat) : ℚ) * 0.1) ∧
    apply_conversion_formula 250 pressureCfg = (((250 : ℚ) / 249) - 4) * 7.5 ∧
    apply_conversion_formula 100 temCfg = 10 :=
  conversion_formula_spec 250 pressureCfg (by norm_num)

/-- C6: the change-detection step emits exactly when there is no stored
last value for the sensor identifier or the absolute difference from it
exceeds 0.1; the stored value is updated only on emit; and at the
spec's test pair, 20.05 against a last value of 20.0 does not emit
while 20.2 does. -/
theorem change_detection_spec :
    (∀ (lv : List (String × ℚ)) (sid : String) (v : ℚ),
      ((processSensor lv sid v).1 = true ↔
        lv.lookup sid = none ∨ ∃ last, lv.lookup sid = some last ∧ 0.1 < |v - last|) ∧
      ((processSensor lv sid v).1 = true → (processSensor lv sid v).2 = setVal sid v lv) ∧
      ((processSensor lv sid v).1 = false → (processSensor lv sid v).2 = lv)) ∧
    processSensor [("S", 20)] "S" 20.05 = (false, [("S", 20)]) ∧
    (processSensor [("S", 20)] "S" 20.2).1 = true := by
  refine ⟨?_, ?_, ?_⟩
  · intro lv sid v
    cases hl : lv.lookup sid with
    | none => simp [processSensor, hl]
    | some last =>
      by_cases hc : (0.1 : ℚ) < |v - last|
      · simp [processSensor, hl, hc]
      · simp [processSensor, hl, hc]
  · have hlook : (([("S", (20 : ℚ))]).lookup "S") = some 20 := rfl
    simp only [processSensor, hlook]
    rw [if_neg no_emit_at_2005]
  · have hlook : (([("S", (20 : ℚ))]).lookup "S") = some 20 := rfl
    simp only [processSensor, hlook]
    rw [if_pos emit_at_202]

/-- C7: after any ingestion sequence the history buffer is the suffix of
the most recently ingested readings, of length at most 1000 — eviction
is FIFO by insertion order, irrespective of sensor identity; ingesting
1500 readings leaves exactly the last 1000; and the unfiltered query is
a permutation of that buffer sorted by timestamp descending. -/
theorem history_buffer_spec :
    ∀ rs : List EnhancedSensorData,
      (ingestAll rs).length ≤ 1000 ∧
      ingestAll rs = rs.drop (rs.length - 1000) ∧
      (rs.length = 1500 → ingestAll rs = rs.drop 500) ∧
      (get_latest_data (ingestAll rs) none none).Perm (ingestAll rs) ∧
      (get_latest_data (ingestAll rs) none none).Pairwise
        (fun a b => b.timestamp ≤ a.timestamp) := by
  intro rs
  have hd := ingestAll_eq_drop rs
  refine ⟨?_, hd, ?_, ?_, ?_⟩
  · rw [hd]
    simp only [List.length_drop]
    omega
  · intro h1500
    rw [hd, h1500]
  · exact List.mergeSort_perm (ingestAll rs) _
  · have h := @List.sorted_mergeSort EnhancedSensorData
      (fun a b => decide (b.timestamp ≤ a.timestamp))
      (fun a b c h1 h2 => by
        simp only [decide_eq_true_eq] at *
        exact le_trans h2 h1)
      (fun a b => by
        simpa [Bool.or_eq_true, decide_eq_true_eq] using Nat.le_total b.timestamp a.timestamp)
      (ingestAll rs)
    exact h.imp (by simp)

/-- C8: one `on_data_received` call stores the reading — the stored
buffer does not depend on the callbacks at all — and then invokes every
registered callback once, in registration order, each call's outcome
(normal or exception) recorded independently of the others; concretely,
a raising first callback does not keep the second from running. -/
theorem ingest_fanout_spec :
    (∀ (all_data : List EnhancedSensorData)
      (cbs : List (EnhancedSensorData → Except String Unit)) (d : EnhancedSensorData),
      (on_data_received all_data cbs d).1 = store_reading all_data d ∧
      (on_data_received all_data cbs d).2 = cbs.map (fun cb => cb d)) ∧
    invokeCallbacks [fun _ => Except.error "boom", fun _ => Except.ok ()] sampleReading =
      [Except.error "boom", Except.ok ()] := by
  exact ⟨fun all_data cbs d => ⟨rfl, invokeCallbacks_eq_map cbs d⟩, rfl⟩

/-- C9: the claim says `AddGateway` completes without raising.  The
replace semantics do hold — after the call the module dict maps the
identifier to a fresh not-yet-started reader bound to the manager's
ingestion entry point, a previously present reader having been stopped
and discarded — but every call then raises AttributeError at the log
statement (line 380 reads `config.config.port` and `IOModuleConfig`
has no attribute `config`), so `add_module` never completes normally. -/
theorem add_module_always_raises :
    (∀ (modules : List (String × IOModuleReader)) (ingest_id : Nat) (cfg : IOModuleConfig),
      (add_module modules ingest_id cfg).raised = some PyExn.attributeError ∧
      (add_module modules ingest_id cfg).modules.lookup cfg.module_id =
        some { config := cfg, data_callback := ingest_id, running := false }) ∧
    add_module demoModules 7 gwCfgNew =
      { modules := [("gw1", { config := gwCfgNew, data_callback := 7, running := false })],
        stopped := [{ config := gwCfgOld, data_callback := 3, running := false }],
        raised := some PyExn.attributeError } := by
  refine ⟨fun modules ingest_id cfg => ⟨rfl, ?_⟩, by decide⟩
  exact lookup_setVal cfg.module_id
    ({ config := cfg, data_callback := ingest_id, running := false } : IOModuleReader) _

/-- C10: every poll cycle advances the read counter by exactly one and
exactly one of the success and failure counters by exactly one, so the
invariant read_count = success_count + fail_count is preserved from the
all-zero initial stats of `__init__`. -/
theorem poller_counter_invariant :
    ∀ (ck : Bool) (outcome : SensorConfig → ReadOutcome)
      (sensors : List SensorConfig) (σ : PollerState),
      (runCycle ck outcome sensors σ).read_count = σ.read_count + 1 ∧
      (((runCycle ck outcome sensors σ).success_count = σ.success_count + 1 ∧
        (runCycle ck outcome sensors σ).fail_count = σ.fail_count) ∨
       ((runCycle ck outcome sensors σ).success_count = σ.success_count ∧
        (runCycle ck outcome sensors σ).fail_count = σ.fail_count + 1)) ∧
      (σ.read_count = σ.success_count + σ.fail_count →
        (runCycle ck outcome sensors σ).read_count =
          (runCycle ck outcome sensors σ).success_count +
          (runCycle ck outcome sensors σ).fail_count) ∧
      initPollerState.read_count = 0 ∧ initPollerState.success_count = 0 ∧
      initPollerState.fail_count = 0 := by
  intro ck outcome sensors σ
  obtain ⟨h1, h2⟩ := runCycle_counter_cases ck outcome sensors σ
  refine ⟨h1, h2, ?_, rfl, rfl, rfl⟩
  intro hinv
  rcases h2 with ⟨hs, hf⟩ | ⟨hs, hf⟩ <;> omega

end SensorSys
